import Mathlib

/-!
Verification of the flexsql SQL-generation library (operator.go, grammar.go).

The expression layer (operators, leaves) is embedded as the inductive `Node`,
mirroring Go's `Node` interface (`type Expr = Node`).  The output context
(`*Compiler`), whose source is not part of the repository snapshot, is modelled
from the spec's output-context contract (sections 4.5 and 4.6): dialect tables,
identifier quoting, placeholder rendering, and the insertion-ordered
name-to-position binding table live in `Compiler` / `PrintState`.
-/

namespace Flexsql

/-- Go `type OperatorType uint`; the value 0 is the reserved "unset" sentinel
(the iota block starts with a discarded `_`). -/
abbrev OperatorType := Nat

def OpMul : OperatorType := 1
def OpDiv : OperatorType := 2
def OpMod : OperatorType := 3
def OpAdd : OperatorType := 4
def OpSub : OperatorType := 5
def OpIsNull : OperatorType := 6
def OpIsNotNull : OperatorType := 7
def OpIsTrue : OperatorType := 8
def OpIsNotTrue : OperatorType := 9
def OpIsFalse : OperatorType := 10
def OpIsNotFalse : OperatorType := 11
def OpIn : OperatorType := 12
def OpNotIn : OperatorType := 13
def OpBetween : OperatorType := 14
def OpNotBetween : OperatorType := 15
def OpLike : OperatorType := 16
def OpNotLike : OperatorType := 17
def OpILike : OperatorType := 18
def OpNotILike : OperatorType := 19
def OpLt : OperatorType := 20
def OpLte : OperatorType := 21
def OpGt : OperatorType := 22
def OpGte : OperatorType := 23
def OpEq : OperatorType := 24
def OpNotEq : OperatorType := 25
def OpNot : OperatorType := 26
def OpAnd : OperatorType := 27
def OpOr : OperatorType := 28

/-- Go `type Associativity uint`: `unset` is Go's zero value, the three named
constants follow (NonAssociative = 1, LeftAssociative = 2, RightAssociative = 3). -/
inductive Associativity where
  | unset
  | nonAssociative
  | leftAssociative
  | rightAssociative
deriving DecidableEq, Repr

/-- The typed error values of grammar.go (the `errors.New` block). -/
inductive Err where
  | noPrecedence
  | noAssociativity
  | unknownFromClauseItem
  | nonAssociative
  | zeroLength
  | unknownInputKey
  | unboundPlaceholder
deriving DecidableEq, Repr

/-- Expression-layer AST nodes.  `unary`, `binary`, `ternary` carry exactly the
fields of Go's `UnaryOperator`, `BinaryOperator`, `TernaryOperator` structs;
`column`, `placeholder`, `sqlType` are representative non-operator leaves
(Go `Column`, `Placeholder`, `SQLType`), which do not implement the
`operator` interface. -/
inductive Node where
  | sqlType (s : String)
  | column (tableLabel name : String)
  | placeholder (name : String)
  | unary (ty : OperatorType) (symbol : String) (negatedTy : OperatorType)
      (negatedSymbol : String) (expr : Node)
      (customPrecedence : Nat) (customAssociativity : Associativity)
  | binary (ty : OperatorType) (symbol : String) (negatedTy : OperatorType)
      (negatedSymbol : String) (left right : Node)
      (customPrecedence : Nat) (customAssociativity : Associativity)
      (suppressSpace : Bool)
  | ternary (ty : OperatorType) (symbol1 symbol2 : String) (negatedTy : OperatorType)
      (negatedSymbol1 negatedSymbol2 : String) (expr1 expr2 expr3 : Node)
      (customPrecedence : Nat) (customAssociativity : Associativity)
deriving DecidableEq, Repr

/-- Whether the node implements Go's `operator` interface (the `e.(operator)`
type assertion used by the Stringify/Transform code). -/
def isOperator : Node → Bool
  | .unary .. => true
  | .binary .. => true
  | .ternary .. => true
  | _ => false

/-- Go method `precedence()` of the three operator structs: returns the
per-instance `CustomPrecedence` field (0 when unset).  Only operator nodes
implement it; the default arm is never consulted. -/
def Node.precedence : Node → Nat
  | .unary _ _ _ _ _ customPrecedence _ => customPrecedence
  | .binary _ _ _ _ _ _ customPrecedence _ _ => customPrecedence
  | .ternary _ _ _ _ _ _ _ _ _ customPrecedence _ => customPrecedence
  | _ => 0

/-- Go method `associativity()`: the per-instance `CustomAssociativity` field. -/
def Node.associativity : Node → Associativity
  | .unary _ _ _ _ _ _ customAssociativity => customAssociativity
  | .binary _ _ _ _ _ _ _ customAssociativity _ => customAssociativity
  | .ternary _ _ _ _ _ _ _ _ _ _ customAssociativity => customAssociativity
  | _ => .unset

/-- Go method `operatorType()`: the `Type` field. -/
def Node.operatorType : Node → OperatorType
  | .unary ty _ _ _ _ _ _ => ty
  | .binary ty _ _ _ _ _ _ _ _ => ty
  | .ternary ty _ _ _ _ _ _ _ _ _ _ => ty
  | _ => 0

/-- Go method `negatable()` of the three operator structs. -/
def negatable : Node → Bool
  | .unary ty _ negatedTy negatedSymbol _ _ _ =>
      ty == OpNot || (negatedTy != 0 && negatedSymbol != "")
  | .binary _ _ negatedTy negatedSymbol _ _ _ _ _ =>
      negatedTy != 0 && negatedSymbol != ""
  | .ternary _ _ _ negatedTy negatedSymbol1 negatedSymbol2 _ _ _ _ _ =>
      negatedTy != 0 && negatedSymbol1 != "" && negatedSymbol2 != ""
  | _ => false

/-- Go method `negate()`.  A logical-NOT unary returns its wrapped child; the
other cases swap `(Type, Symbol*)` with `(NegatedType, NegatedSymbol*)` and
copy the children and the two custom overrides.  `BinaryOperator.negate` does
not copy `SuppressSpace`, so the negated binary gets Go's zero value `false`. -/
def negate : Node → Node
  | .unary ty symbol negatedTy negatedSymbol e customPrecedence customAssociativity =>
      if ty == OpNot then e
      else .unary negatedTy negatedSymbol ty symbol e customPrecedence customAssociativity
  | .binary ty symbol negatedTy negatedSymbol l r customPrecedence customAssociativity _ =>
      .binary negatedTy negatedSymbol ty symbol l r customPrecedence customAssociativity false
  | .ternary ty symbol1 symbol2 negatedTy negatedSymbol1 negatedSymbol2 e1 e2 e3
      customPrecedence customAssociativity =>
      .ternary negatedTy negatedSymbol1 negatedSymbol2 ty symbol1 symbol2 e1 e2 e3
        customPrecedence customAssociativity
  | n => n

/-- Reads back the `SuppressSpace` field of a binary operator. -/
def Node.suppressSpace : Node → Bool
  | .binary _ _ _ _ _ _ _ _ suppressSpace => suppressSpace
  | _ => false

/-- Modelled from the spec: the output context (`*Compiler` is not part of the
repository snapshot).  Section 4.6: per-operator-kind precedence and
associativity tables (zero / unset meaning "no entry"), the dialect's
placeholder-rendering function `renderPlaceholder(name, position)`, and the
identifier-quoting rule. -/
structure Compiler where
  precedence : OperatorType → Nat
  associativity : OperatorType → Associativity
  makePlaceholder : String → Nat → String
  quoteIdentifier : String → String

/-- Modelled from the spec: the mutable per-print-pass state of the output
context — the emitted-text buffer and the insertion-ordered name-to-position
binding table (section 3, "Output context"). -/
structure PrintState where
  buffer : String
  bindings : List String
deriving DecidableEq, Repr

/-- Go `c.WriteVerbatim`: append text to the output buffer. -/
def writeVerbatim (s : PrintState) (t : String) : PrintState :=
  { s with buffer := s.buffer ++ t }

/-- Go `c.WriteIdentifier`: append the dialect-quoted identifier. -/
def writeIdentifier (c : Compiler) (s : PrintState) (name : String) : PrintState :=
  writeVerbatim s (c.quoteIdentifier name)

/-- Position of `name` in the insertion-ordered binding list (0-based). -/
def indexOfName (name : String) : List String → Option Nat
  | [] => none
  | x :: xs => if x == name then some 0 else (indexOfName name xs).map (· + 1)

/-- Modelled from the spec: `c.insertPlaceholder(name)` — section 4.5: if the
name was already bound in this print pass its existing position is reused,
otherwise the next sequential 1-based position is assigned and recorded. -/
def insertPlaceholder (s : PrintState) (name : String) : Nat × PrintState :=
  match indexOfName name s.bindings with
  | some i => (i + 1, s)
  | none => (s.bindings.length + 1, { s with bindings := s.bindings ++ [name] })

/-- The 1-based position `name` is currently bound to, if any. -/
def boundPos (s : PrintState) (name : String) : Option Nat :=
  (indexOfName name s.bindings).map (· + 1)

/-- Outcome of a `Stringify` call: Go returns `error` (possibly nil) while
writing into the compiler's buffer; `panicked` represents a Go runtime panic
(out-of-range slice index). -/
inductive SResult where
  | ok (s : PrintState)
  | err (e : Err)
  | panicked
deriving DecidableEq, Repr

/-- Sequencing of stringify steps: Go's early-return-on-error pattern. -/
def SResult.andThen : SResult → (PrintState → SResult) → SResult
  | .ok s, f => f s
  | .err e, _ => .err e
  | .panicked, _ => .panicked

/-- Go `resolveOperatorPrecedence` (operator.go lines 55-65). -/
def resolveOperatorPrecedence (op : Node) (c : Compiler) : Except Err Nat :=
  let customPrecedence := Node.precedence op
  if customPrecedence != 0 then .ok customPrecedence
  else
    let precedence := c.precedence (Node.operatorType op)
    if precedence != 0 then .ok precedence
    else .error .noPrecedence

/-- Go `resolveOperatorAssociativity` (operator.go lines 67-77). -/
def resolveOperatorAssociativity (op : Node) (c : Compiler) : Except Err Associativity :=
  let customAssociativity := Node.associativity op
  if customAssociativity != .unset then .ok customAssociativity
  else
    let associativity := c.associativity (Node.operatorType op)
    if associativity != .unset then .ok associativity
    else .error .noAssociativity

/-- The parenthesization test of `UnaryOperator.Stringify` (operator.go lines
175-178): the operand is wrapped iff its resolved precedence is strictly
below the unary's own. -/
def unaryNeedParen (ourPrecedence theirPrecedence : Nat) : Bool :=
  decide (theirPrecedence < ourPrecedence)

/-- The `needParen` formula of `BinaryOperator.Stringify`'s `handleSide`
(operator.go lines 247-249). -/
def binaryNeedParen (assoc : Associativity) (ourPrecedence theirPrecedence : Nat)
    (targetAssoc : Associativity) : Bool :=
  (assoc == .nonAssociative && decide (theirPrecedence ≤ ourPrecedence)) ||
  (assoc != .nonAssociative && (decide (theirPrecedence < ourPrecedence) ||
    (theirPrecedence == ourPrecedence && assoc == targetAssoc)))

/-- The `needParen` test of `TernaryOperator.Stringify`'s `handleExpr`
(operator.go line 335): wrap iff the child's precedence is less than or equal. -/
def ternaryNeedParen (ourPrecedence theirPrecedence : Nat) : Bool :=
  decide (theirPrecedence ≤ ourPrecedence)

/-- The spec's (claim C1's) left-child parenthesization formula, transcribed
from its words: `(assoc == NonAssociative AND childPrec <= ownPrec) OR
(assoc != NonAssociative AND (childPrec < ownPrec OR (childPrec == ownPrec
AND assoc == Right)))`. -/
def specLeftChildParen (assoc : Associativity) (ownPrec childPrec : Nat) : Bool :=
  (assoc == .nonAssociative && decide (childPrec ≤ ownPrec)) ||
  (assoc != .nonAssociative && (decide (childPrec < ownPrec) ||
    (childPrec == ownPrec && assoc == .rightAssociative)))

/-- The spec's (claim C1's) right-child formula: the same with the tie-break
target flipped to Left. -/
def specRightChildParen (assoc : Associativity) (ownPrec childPrec : Nat) : Bool :=
  (assoc == .nonAssociative && decide (childPrec ≤ ownPrec)) ||
  (assoc != .nonAssociative && (decide (childPrec < ownPrec) ||
    (childPrec == ownPrec && assoc == .leftAssociative)))

/-- Go `stringifyParen` (grammar.go lines 163-170), with the recursive
`node.Stringify(c)` call abstracted as `render`: emit `(`, the node, `)`. -/
def parenWrap (render : PrintState → SResult) (s : PrintState) : SResult :=
  (render (writeVerbatim s "(")).andThen fun s1 => .ok (writeVerbatim s1 ")")

/-- The `write` closure of `UnaryOperator.Stringify` (operator.go lines
149-166), with the operand emission abstracted: RightAssociative prints the
symbol as a prefix, LeftAssociative as a suffix. -/
def unaryEmit (assoc : Associativity) (symbol : String)
    (operand : PrintState → SResult) (s : PrintState) : SResult :=
  let s1 := if assoc == .rightAssociative then writeVerbatim s (symbol ++ " ") else s
  (operand s1).andThen fun s2 =>
    .ok (if assoc == .leftAssociative then writeVerbatim s2 (" " ++ symbol) else s2)

/-- The shared child-dispatch pattern of `handleSide` / `handleExpr` and of the
unary operand handling: a child that is not an operator is rendered plainly;
an operator child has its precedence resolved (propagating failure) and is
wrapped iff the arity's `needParen` test fires. -/
def sideRender (isOp : Bool) (precResult : Except Err Nat) (needParen : Nat → Bool)
    (plain wrapped : PrintState → SResult) (s : PrintState) : SResult :=
  if isOp then
    match precResult with
    | .error er => .err er
    | .ok theirPrecedence => if needParen theirPrecedence then wrapped s else plain s
  else plain s

/-- The `Stringify` methods of the expression layer: `SQLType` (grammar.go
35-38), `Column` (277-284), `Placeholder` (465-470), `UnaryOperator`
(operator.go 136-179), `BinaryOperator` (228-265), `TernaryOperator`
(320-351). -/
def stringify (c : Compiler) : Node → PrintState → SResult
  | .sqlType s => fun st => .ok (writeVerbatim st s)
  | .column tableLabel name => fun st =>
      if tableLabel != "" then
        .ok (writeIdentifier c (writeVerbatim (writeIdentifier c st tableLabel) ".") name)
      else
        .ok (writeIdentifier c st name)
  | .placeholder p => fun st =>
      let r := insertPlaceholder st p
      .ok (writeVerbatim r.2 (c.makePlaceholder p r.1))
  | .unary ty symbol negatedTy negatedSymbol e customPrecedence customAssociativity => fun st =>
      let u : Node := .unary ty symbol negatedTy negatedSymbol e customPrecedence customAssociativity
      match resolveOperatorAssociativity u c with
      | .error er => .err er
      | .ok assoc =>
        if assoc = .nonAssociative then .err .nonAssociative
        else
          match resolveOperatorPrecedence u c with
          | .error er => .err er
          | .ok ourPrecedence =>
            sideRender (isOperator e) (resolveOperatorPrecedence e c)
              (unaryNeedParen ourPrecedence)
              (unaryEmit assoc symbol (stringify c e))
              (unaryEmit assoc symbol (parenWrap (stringify c e))) st
  | .binary ty symbol negatedTy negatedSymbol l r customPrecedence customAssociativity
      suppressSpace => fun st =>
      let b : Node := .binary ty symbol negatedTy negatedSymbol l r customPrecedence
        customAssociativity suppressSpace
      match resolveOperatorAssociativity b c with
      | .error er => .err er
      | .ok assoc =>
        match resolveOperatorPrecedence b c with
        | .error er => .err er
        | .ok ourPrecedence =>
          (sideRender (isOperator l) (resolveOperatorPrecedence l c)
              (fun tp => binaryNeedParen assoc ourPrecedence tp .rightAssociative)
              (stringify c l) (parenWrap (stringify c l)) st).andThen fun s1 =>
            let s2 := if suppressSpace then writeVerbatim s1 symbol
              else writeVerbatim s1 (" " ++ symbol ++ " ")
            sideRender (isOperator r) (resolveOperatorPrecedence r c)
              (fun tp => binaryNeedParen assoc ourPrecedence tp .leftAssociative)
              (stringify c r) (parenWrap (stringify c r)) s2
  | .ternary ty symbol1 symbol2 negatedTy negatedSymbol1 negatedSymbol2 e1 e2 e3
      customPrecedence customAssociativity => fun st =>
      let t : Node := .ternary ty symbol1 symbol2 negatedTy negatedSymbol1 negatedSymbol2
        e1 e2 e3 customPrecedence customAssociativity
      match resolveOperatorPrecedence t c with
      | .error er => .err er
      | .ok ourPrecedence =>
        (sideRender (isOperator e1) (resolveOperatorPrecedence e1 c)
            (ternaryNeedParen ourPrecedence)
            (stringify c e1) (parenWrap (stringify c e1)) st).andThen fun s1 =>
          (sideRender (isOperator e2) (resolveOperatorPrecedence e2 c)
              (ternaryNeedParen ourPrecedence)
              (stringify c e2) (parenWrap (stringify c e2))
              (writeVerbatim s1 (" " ++ symbol1 ++ " "))).andThen fun s2 =>
            sideRender (isOperator e3) (resolveOperatorPrecedence e3 c)
              (ternaryNeedParen ourPrecedence)
              (stringify c e3) (parenWrap (stringify c e3))
              (writeVerbatim s2 (" " ++ symbol2 ++ " "))

/-- Structural size of an expression tree (number of nodes); the termination
measure for `transform`, insensitive to the string fields `negate` swaps. -/
def nsize : Node → Nat
  | .sqlType _ => 1
  | .column _ _ => 1
  | .placeholder _ => 1
  | .unary _ _ _ _ e _ _ => nsize e + 1
  | .binary _ _ _ _ l r _ _ _ => nsize l + nsize r + 1
  | .ternary _ _ _ _ _ _ e1 e2 e3 _ _ => nsize e1 + nsize e2 + nsize e3 + 1

theorem nsize_pos (n : Node) : 1 ≤ nsize n := by
  cases n <;> simp [nsize]

theorem nsize_negate_le (n : Node) : nsize (negate n) ≤ nsize n := by
  cases n <;> simp [negate, nsize]
  next ty _ _ _ e _ _ =>
    split <;> simp [nsize]

/-- The `Transform` methods of the expression layer: `SQLType` (grammar.go
31-33), `Column` (273-275), `Placeholder` (461-463), `UnaryOperator`
(operator.go 124-134), `BinaryOperator` (222-226), `TernaryOperator`
(313-318).  A logical-NOT unary whose child is a negatable operator is
replaced by the child's negated counterpart, which is itself transformed. -/
def transform (c : Compiler) : Node → Node
  | .sqlType s => .sqlType s
  | .column tableLabel name => .column tableLabel name
  | .placeholder p => .placeholder p
  | .unary ty symbol negatedTy negatedSymbol e customPrecedence customAssociativity =>
      if ty == OpNot && isOperator e && negatable e then
        transform c (negate e)
      else
        .unary ty symbol negatedTy negatedSymbol (transform c e)
          customPrecedence customAssociativity
  | .binary ty symbol negatedTy negatedSymbol l r customPrecedence customAssociativity
      suppressSpace =>
      .binary ty symbol negatedTy negatedSymbol (transform c l) (transform c r)
        customPrecedence customAssociativity suppressSpace
  | .ternary ty symbol1 symbol2 negatedTy negatedSymbol1 negatedSymbol2 e1 e2 e3
      customPrecedence customAssociativity =>
      .ternary ty symbol1 symbol2 negatedTy negatedSymbol1 negatedSymbol2
        (transform c e1) (transform c e2) (transform c e3)
        customPrecedence customAssociativity
termination_by n => nsize n
decreasing_by
  all_goals simp [nsize]
  all_goals try omega
  exact Nat.lt_succ_of_le (nsize_negate_le _)

/-- Go constructor `Not` (operator.go lines 353-359). -/
def Not (e : Node) : Node := .unary OpNot "NOT" 0 "" e 0 .unset

/-- Go constructor `IsNull` (operator.go lines 361-369). -/
def IsNull (e : Node) : Node :=
  .unary OpIsNull "IS NULL" OpIsNotNull "IS NOT NULL" e 0 .unset

/-- Go constructor `IsNotNull` (operator.go lines 371-379). -/
def IsNotNull (e : Node) : Node :=
  .unary OpIsNotNull "IS NOT NULL" OpIsNull "IS NULL" e 0 .unset

/-- Go constructor `IsTrue` (operator.go lines 381-389). -/
def IsTrue (e : Node) : Node :=
  .unary OpIsTrue "IS TRUE" OpIsNotTrue "IS NOT TRUE" e 0 .unset

/-- Go constructor `Eq` (operator.go lines 520-529). -/
def Eq (l r : Node) : Node := .binary OpEq "=" OpNotEq "<>" l r 0 .unset false

/-- Go constructor `Sub` (operator.go lines 448-455). -/
def Sub (l r : Node) : Node := .binary OpSub "-" 0 "" l r 0 .unset false

/-- Go constructor `Add` (operator.go lines 439-446). -/
def Add (l r : Node) : Node := .binary OpAdd "+" 0 "" l r 0 .unset false

/-- Go constructor `Between` (operator.go lines 608-620). -/
def Between (e1 e2 e3 : Node) : Node :=
  .ternary OpBetween "BETWEEN" "AND" OpNotBetween "NOT BETWEEN" "AND" e1 e2 e3 0 .unset

/-- Go `LabeledColumn` (grammar.go lines 286-289). -/
structure LabeledColumn where
  expr : Node
  label : String
deriving Repr

/-- Go `LabeledTable` (grammar.go lines 322-326). -/
structure LabeledTable where
  schema : String
  name : String
  label : String
deriving Repr

/-- Go `WhereClause` (grammar.go lines 506-508). -/
structure WhereClause where
  expr : Node
deriving Repr

/-- Go `GroupByClause` (grammar.go lines 520-522). -/
structure GroupByClause where
  exprs : List Node
deriving Repr

/-- Go `HavingClause` (grammar.go lines 545-547). -/
structure HavingClause where
  expr : Node
deriving Repr

/-- Go `orderbyItem` (grammar.go lines 568-573). -/
structure OrderbyItem where
  expr : Node
  desc : Bool
  nullsSet : Bool
  nullsLast : Bool
deriving Repr

/-- Go `OrderByClause` (grammar.go lines 647-649). -/
structure OrderByClause where
  items : List OrderbyItem
deriving Repr

/-- Go `LimitClause` (grammar.go lines 676-678). -/
structure LimitClause where
  expr : Node
deriving Repr

/-- Go `OffsetClause` (grammar.go lines 690-692). -/
structure OffsetClause where
  expr : Node
deriving Repr

mutual
/-- Go `SelectStmt` (grammar.go lines 704-713); nil pointers become `none`. -/
inductive SelectStmt where
  | mk (columns : List LabeledColumn) (fromClause : Option FromClause)
      (whereClause : Option WhereClause) (groupByClause : Option GroupByClause)
      (havingClause : Option HavingClause) (orderByClause : Option OrderByClause)
      (limitClause : Option LimitClause) (offsetClause : Option OffsetClause)
/-- Go `FromClause` (grammar.go lines 172-174). -/
inductive FromClause where
  | mk (fromClauseItem : FromClauseItem)
/-- Go `FromClauseItem` (grammar.go lines 343-347): three optional
alternatives, consulted in field order. -/
inductive FromClauseItem where
  | mk (tableRef : Option LabeledTable) (subquery : Option LabeledSelectStmt)
      (joinClause : Option JoinClause)
/-- Go `LabeledSelectStmt` (grammar.go lines 248-251). -/
inductive LabeledSelectStmt where
  | mk (selectStmt : SelectStmt) (label : String)
/-- Go `JoinClause` (grammar.go lines 186-191). -/
inductive JoinClause where
  | mk (joinType : String) (left : FromClauseItem) (right : FromClauseItem) (onExpr : Node)
end

/-- Go `LabeledColumn.Stringify` (grammar.go lines 295-302): expression, a
space, then the quoted label. -/
def stringifyLabeledColumn (c : Compiler) (l : LabeledColumn) (s : PrintState) : SResult :=
  (stringify c l.expr s).andThen fun s1 =>
    .ok (writeIdentifier c (writeVerbatim s1 " ") l.label)

/-- Go `LabeledTable.Stringify` (grammar.go lines 332-341). -/
def stringifyLabeledTable (c : Compiler) (t : LabeledTable) (s : PrintState) : SResult :=
  let s1 := if t.schema != "" then
    writeVerbatim (writeIdentifier c s t.schema) "." else s
  .ok (writeIdentifier c (writeVerbatim (writeIdentifier c s1 t.name) " ") t.label)

/-- The `for ... range xs[1:]` comma loop shared by `stringifyCommaSeparated`
(grammar.go lines 147-161) and `SelectStmt.Stringify` (lines 748-753): each
remaining item is preceded by a bare comma. -/
def stringifyCommaRest (render : α → PrintState → SResult) :
    List α → PrintState → SResult
  | [], s => .ok s
  | x :: rest, s =>
      (render x (writeVerbatim s ",")).andThen fun s1 =>
        stringifyCommaRest render rest s1

/-- Go `stringifyCommaSeparated` (grammar.go lines 147-161), generic in the
item renderer: an empty list emits nothing. -/
def stringifyCommaSeparated (render : α → PrintState → SResult)
    (items : List α) (s : PrintState) : SResult :=
  match items with
  | [] => .ok s
  | x :: rest => (render x s).andThen fun s1 => stringifyCommaRest render rest s1

/-- Go `WhereClause.Stringify` (grammar.go lines 515-518). -/
def stringifyWhere (c : Compiler) (w : WhereClause) (s : PrintState) : SResult :=
  stringify c w.expr (writeVerbatim s "WHERE ")

/-- Go `GroupByClause.Stringify` (grammar.go lines 531-534). -/
def stringifyGroupBy (c : Compiler) (g : GroupByClause) (s : PrintState) : SResult :=
  stringifyCommaSeparated (stringify c) g.exprs (writeVerbatim s "GROUP BY ")

/-- Go `HavingClause.Stringify` (grammar.go lines 554-557). -/
def stringifyHaving (c : Compiler) (h : HavingClause) (s : PrintState) : SResult :=
  stringify c h.expr (writeVerbatim s "HAVING ")

/-- Go `orderbyItem.Stringify` (grammar.go lines 599-615): the expression,
`" DESC"` when descending, and a NULLS keyword only when the nulls preference
is set and matches the direction as coded (`desc && nullsLast` or
`!desc && !nullsLast`). -/
def stringifyOrderbyItem (c : Compiler) (o : OrderbyItem) (s : PrintState) : SResult :=
  (stringify c o.expr s).andThen fun s1 =>
    let s2 := if o.desc then writeVerbatim s1 " DESC" else s1
    let s3 :=
      if o.nullsSet then
        let s2a := if o.desc && o.nullsLast then writeVerbatim s2 " NULLS LAST" else s2
        if !o.desc && !o.nullsLast then writeVerbatim s2a " NULLS FIRST" else s2a
      else s2
    .ok s3

/-- Go `OrderByClause.Stringify` (grammar.go lines 658-665). -/
def stringifyOrderByClause (c : Compiler) (o : OrderByClause) (s : PrintState) : SResult :=
  stringifyCommaSeparated (stringifyOrderbyItem c) o.items (writeVerbatim s "ORDER BY ")

/-- Go `LimitClause.Stringify` (grammar.go lines 685-688). -/
def stringifyLimit (c : Compiler) (l : LimitClause) (s : PrintState) : SResult :=
  stringify c l.expr (writeVerbatim s "LIMIT ")

/-- Go `OffsetClause.Stringify` (grammar.go lines 699-702). -/
def stringifyOffset (c : Compiler) (o : OffsetClause) (s : PrintState) : SResult :=
  stringify c o.expr (writeVerbatim s "OFFSET ")

/-- Go `Desc` (grammar.go lines 617-622). -/
def Desc (e : Node) : OrderbyItem := { expr := e, desc := true, nullsSet := false, nullsLast := false }

/-- Go `Asc` (grammar.go lines 624-628). -/
def Asc (e : Node) : OrderbyItem := { expr := e, desc := false, nullsSet := false, nullsLast := false }

/-- Go `NullsLast` (grammar.go lines 630-637): copies the expression and
direction, sets the nulls preference to last. -/
def NullsLast (o : OrderbyItem) : OrderbyItem :=
  { expr := o.expr, desc := o.desc, nullsSet := true, nullsLast := true }

/-- Go `NullsFirst` (grammar.go lines 639-645): copies the expression and
direction, sets the nulls preference (nullsLast keeps Go's zero value false). -/
def NullsFirst (o : OrderbyItem) : OrderbyItem :=
  { expr := o.expr, desc := o.desc, nullsSet := true, nullsLast := false }

mutual
/-- Go `SelectStmt.Stringify` (grammar.go lines 743-797): writes `"SELECT "`,
then unconditionally indexes `s.Columns[0]` — an empty column list is a Go
runtime panic (index out of range), modelled as `.panicked` — then the
remaining columns each after a bare comma, then each present clause preceded
by a single space. -/
def stringifySelect (c : Compiler) : SelectStmt → PrintState → SResult
  | .mk columns fromClause whereClause groupByClause havingClause orderByClause
      limitClause offsetClause, s =>
    match columns with
    | [] => .panicked
    | c0 :: rest =>
      (stringifyLabeledColumn c c0 (writeVerbatim s "SELECT ")).andThen fun s1 =>
      (stringifyCommaRest (stringifyLabeledColumn c) rest s1).andThen fun s2 =>
      ((match fromClause with
        | none => .ok s2
        | some fc => stringifyFromClause c fc (writeVerbatim s2 " ") : SResult)).andThen fun s3 =>
      ((match whereClause with
        | none => .ok s3
        | some w => stringifyWhere c w (writeVerbatim s3 " ") : SResult)).andThen fun s4 =>
      ((match groupByClause with
        | none => .ok s4
        | some g => stringifyGroupBy c g (writeVerbatim s4 " ") : SResult)).andThen fun s5 =>
      ((match havingClause with
        | none => .ok s5
        | some h => stringifyHaving c h (writeVerbatim s5 " ") : SResult)).andThen fun s6 =>
      ((match orderByClause with
        | none => .ok s6
        | some o => stringifyOrderByClause c o (writeVerbatim s6 " ") : SResult)).andThen fun s7 =>
      ((match limitClause with
        | none => .ok s7
        | some l => stringifyLimit c l (writeVerbatim s7 " ") : SResult)).andThen fun s8 =>
      match offsetClause with
        | none => .ok s8
        | some o => stringifyOffset c o (writeVerbatim s8 " ")

/-- Go `FromClause.Stringify` (grammar.go lines 181-184). -/
def stringifyFromClause (c : Compiler) : FromClause → PrintState → SResult
  | .mk item, s => stringifyFromClauseItem c item (writeVerbatim s "FROM ")

/-- Go `FromClauseItem.Stringify` (grammar.go lines 360-369): first populated
alternative wins; none populated is the UnknownFromClauseItem error. -/
def stringifyFromClauseItem (c : Compiler) : FromClauseItem → PrintState → SResult
  | .mk tableRef subquery joinClause, s =>
    match tableRef with
    | some t => stringifyLabeledTable c t s
    | none =>
      match subquery with
      | some q => stringifyLabeledSelect c q s
      | none =>
        match joinClause with
        | some j => stringifyJoin c j s
        | none => .err .unknownFromClauseItem

/-- Go `LabeledSelectStmt.Stringify` (grammar.go lines 258-266). -/
def stringifyLabeledSelect (c : Compiler) : LabeledSelectStmt → PrintState → SResult
  | .mk stmt label, s =>
    (stringifySelect c stmt (writeVerbatim s "(")).andThen fun s1 =>
      .ok (writeIdentifier c (writeVerbatim s1 ") ") label)

/-- Go `JoinClause.Stringify` (grammar.go lines 200-210). -/
def stringifyJoin (c : Compiler) : JoinClause → PrintState → SResult
  | .mk joinType left right onExpr, s =>
    (stringifyFromClauseItem c left s).andThen fun s1 =>
      (stringifyFromClauseItem c right (writeVerbatim s1 (" " ++ joinType ++ " "))).andThen
        fun s2 => stringify c onExpr (writeVerbatim s2 " ON ")
end

/-- A concrete dialect used for the closed examples: a typical SQL precedence
table (larger binds tighter), `$n`-style placeholders, identity quoting. -/
def testCompiler : Compiler where
  precedence := fun t =>
    if t == OpOr then 1 else if t == OpAnd then 2
    else if t == OpNot then 3 else if t == OpEq then 4
    else if t == OpAdd then 5 else if t == OpSub then 5
    else if t == OpBetween then 5
    else if t == OpIsNull then 6 else if t == OpIsNotNull then 6
    else if t == OpIsTrue then 6
    else if t == OpMul then 7 else 0
  associativity := fun t =>
    if t == OpOr then .leftAssociative else if t == OpAnd then .leftAssociative
    else if t == OpNot then .rightAssociative else if t == OpEq then .nonAssociative
    else if t == OpAdd then .leftAssociative else if t == OpSub then .leftAssociative
    else if t == OpIsNull then .leftAssociative
    else if t == OpIsNotNull then .leftAssociative
    else if t == OpIsTrue then .nonAssociative
    else if t == OpMul then .leftAssociative else .unset
  makePlaceholder := fun _ pos => "$" ++ toString pos
  quoteIdentifier := fun name => name

/-- The empty print state starting a print pass. -/
def st0 : PrintState := { buffer := "", bindings := [] }
theorem andThen_ok (r : SResult) : r.andThen (fun s => .ok s) = r := by
  cases r <;> rfl

theorem transform_of_not_operator (c : Compiler) (n : Node) (h : isOperator n = false) :
    transform c n = n := by
  cases n <;> simp_all [isOperator, transform]

/-- A non-negatable operator keeps its head fields (hence its operator status
and non-negatability) across `transform`. -/
theorem transform_of_not_negatable (c : Compiler) (n : Node) (hop : isOperator n = true)
    (hneg : negatable n = false) :
    isOperator (transform c n) = true ∧ negatable (transform c n) = false := by
  cases n with
  | unary ty symbol negatedTy negatedSymbol e customPrecedence customAssociativity =>
    have hty : (ty == OpNot) = false := by
      simp [negatable] at hneg
      simp [hneg.1]
    simp [transform, hty, isOperator, negatable]
    simpa [negatable, hty] using hneg
  | binary ty symbol negatedTy negatedSymbol l r customPrecedence customAssociativity
      suppressSpace =>
    simp [transform, isOperator]
    simpa [negatable] using hneg
  | ternary ty symbol1 symbol2 negatedTy negatedSymbol1 negatedSymbol2 e1 e2 e3
      customPrecedence customAssociativity =>
    simp [transform, isOperator]
    simpa [negatable] using hneg
  | sqlType s => simp [isOperator] at hop
  | column tableLabel name => simp [isOperator] at hop
  | placeholder p => simp [isOperator] at hop

theorem transform_transform_aux (c : Compiler) :
    ∀ k n, nsize n ≤ k → transform c (transform c n) = transform c n := by
  intro k
  induction k with
  | zero =>
    intro n h
    have := nsize_pos n
    omega
  | succ k ih =>
    intro n h
    cases n with
    | sqlType s => simp [transform]
    | column tableLabel name => simp [transform]
    | placeholder p => simp [transform]
    | unary ty symbol negatedTy negatedSymbol e customPrecedence customAssociativity =>
      have he : nsize e ≤ k := by
        simp [nsize] at h
        omega
      by_cases hg : (ty == OpNot && isOperator e && negatable e) = true
      · rw [transform, if_pos hg]
        exact ih (negate e) (le_trans (nsize_negate_le e) he)
      · rw [transform, if_neg hg]
        by_cases hty : (ty == OpNot) = true
        · by_cases hop : isOperator e = true
          · have hneg : negatable e = false := by
              cases hne : negatable e
              · rfl
              · exact absurd (by simp [hty, hop, hne]) hg
            obtain ⟨hop2, hneg2⟩ := transform_of_not_negatable c e hop hneg
            rw [transform, if_neg (by simp [hneg2])]
            rw [ih e he]
          · have hop2 : isOperator (transform c e) = false := by
              rw [transform_of_not_operator c e (by simpa using hop)]
              simpa using hop
            rw [transform, if_neg (by simp [hop2])]
            rw [ih e he]
        · rw [transform, if_neg (by simp [hty])]
          rw [ih e he]
    | binary ty symbol negatedTy negatedSymbol l r customPrecedence customAssociativity
        suppressSpace =>
      have hl : nsize l ≤ k := by
        have := nsize_pos r
        simp [nsize] at h
        omega
      have hr : nsize r ≤ k := by
        have := nsize_pos l
        simp [nsize] at h
        omega
      simp [transform, ih l hl, ih r hr]
    | ternary ty symbol1 symbol2 negatedTy negatedSymbol1 negatedSymbol2 e1 e2 e3
        customPrecedence customAssociativity =>
      have h1 : nsize e1 ≤ k := by
        have := nsize_pos e2
        have := nsize_pos e3
        simp [nsize] at h
        omega
      have h2 : nsize e2 ≤ k := by
        have := nsize_pos e1
        have := nsize_pos e3
        simp [nsize] at h
        omega
      have h3 : nsize e3 ≤ k := by
        have := nsize_pos e1
        have := nsize_pos e2
        simp [nsize] at h
        omega
      simp [transform, ih e1 h1, ih e2 h2, ih e3 h3]

/-- The second state's binding table extends the first's by appending: bound
names and their positions are never disturbed during a print pass. -/
def bindsExtend (s1 s2 : PrintState) : Prop :=
  ∃ t, s2.bindings = s1.bindings ++ t

theorem bindsExtend_refl (s : PrintState) : bindsExtend s s := ⟨[], by simp⟩

theorem bindsExtend_trans {a b c : PrintState} (h1 : bindsExtend a b)
    (h2 : bindsExtend b c) : bindsExtend a c := by
  obtain ⟨t1, h1⟩ := h1
  obtain ⟨t2, h2⟩ := h2
  exact ⟨t1 ++ t2, by simp [h2, h1]⟩

theorem bindings_if_write (c : Prop) [Decidable c] (s : PrintState) (t : String) :
    (if c then writeVerbatim s t else s).bindings = s.bindings := by
  split <;> rfl

theorem bindings_if_write2 (c : Prop) [Decidable c] (s : PrintState) (t u : String) :
    (if c then writeVerbatim s t else writeVerbatim s u).bindings = s.bindings := by
  split <;> rfl

theorem insertPlaceholder_extends (s : PrintState) (name : String) :
    bindsExtend s (insertPlaceholder s name).2 := by
  unfold insertPlaceholder
  cases hidx : indexOfName name s.bindings with
  | some i => exact ⟨[], by simp⟩
  | none => exact ⟨[name], rfl⟩

/-- A renderer whose every successful run only appends to the binding table. -/
def ExtendsFn (f : PrintState → SResult) : Prop :=
  ∀ s s', f s = .ok s' → bindsExtend s s'

theorem extendsFn_parenWrap {f : PrintState → SResult} (hf : ExtendsFn f) :
    ExtendsFn (parenWrap f) := by
  intro s s' h
  unfold parenWrap at h
  cases hfe : f (writeVerbatim s "(") with
  | ok s1 =>
    rw [hfe] at h
    simp [SResult.andThen] at h
    obtain ⟨t, ht⟩ := hf _ _ hfe
    exact ⟨t, by rw [← h]; exact ht⟩
  | err e => rw [hfe] at h; simp [SResult.andThen] at h
  | panicked => rw [hfe] at h; simp [SResult.andThen] at h

theorem extendsFn_unaryEmit {f : PrintState → SResult} (hf : ExtendsFn f)
    (assoc : Associativity) (symbol : String) :
    ExtendsFn (unaryEmit assoc symbol f) := by
  intro s s' h
  simp only [unaryEmit] at h
  cases hfe : f (if assoc == .rightAssociative then writeVerbatim s (symbol ++ " ") else s) with
  | ok s2 =>
    rw [hfe] at h
    simp [SResult.andThen] at h
    obtain ⟨t, ht⟩ := hf _ _ hfe
    rw [bindings_if_write] at ht
    exact ⟨t, by rw [← h, bindings_if_write]; exact ht⟩
  | err e => rw [hfe] at h; simp [SResult.andThen] at h
  | panicked => rw [hfe] at h; simp [SResult.andThen] at h

theorem extendsFn_sideRender {plain wrapped : PrintState → SResult}
    (hp : ExtendsFn plain) (hw : ExtendsFn wrapped) (isOp : Bool)
    (precResult : Except Err Nat) (needParen : Nat → Bool) :
    ExtendsFn (sideRender isOp precResult needParen plain wrapped) := by
  intro s s' h
  unfold sideRender at h
  split at h
  · split at h
    · simp at h
    · split at h
      · exact hw _ _ h
      · exact hp _ _ h
  · exact hp _ _ h

/-- Rendering an expression only appends to the binding table: positions
assigned earlier in the print pass are stable. -/
theorem stringify_extends (c : Compiler) (n : Node) : ExtendsFn (stringify c n) := by
  induction n with
  | sqlType s =>
    intro s1 s2 h
    simp [stringify] at h
    exact ⟨[], by rw [← h]; simp [writeVerbatim]⟩
  | column tableLabel name =>
    intro s1 s2 h
    simp [stringify] at h
    split at h <;> simp at h <;>
      exact ⟨[], by rw [← h]; simp [writeIdentifier, writeVerbatim]⟩
  | placeholder p =>
    intro s1 s2 h
    simp [stringify] at h
    obtain ⟨t, ht⟩ := insertPlaceholder_extends s1 p
    exact ⟨t, by rw [← h]; exact ht⟩
  | unary ty symbol negatedTy negatedSymbol e customPrecedence customAssociativity ih =>
    intro s1 s2 h
    simp only [stringify] at h
    split at h
    · simp at h
    · split at h
      · simp at h
      · split at h
        · simp at h
        · exact extendsFn_sideRender (extendsFn_unaryEmit ih _ _)
            (extendsFn_unaryEmit (extendsFn_parenWrap ih) _ _) _ _ _ _ _ h
  | binary ty symbol negatedTy negatedSymbol l r customPrecedence customAssociativity
      suppressSpace ihl ihr =>
    intro s1 s2 h
    simp only [stringify] at h
    split at h
    · simp at h
    · split at h
      · simp at h
      · cases hx : sideRender (isOperator l) (resolveOperatorPrecedence l c) _
            (stringify c l) (parenWrap (stringify c l)) s1 with
        | ok t1 =>
          rw [hx] at h
          simp only [SResult.andThen] at h
          have e1 := extendsFn_sideRender ihl (extendsFn_parenWrap ihl) _ _ _ _ _ hx
          have e2 := extendsFn_sideRender ihr (extendsFn_parenWrap ihr) _ _ _ _ _ h
          refine bindsExtend_trans e1 ?_
          obtain ⟨t, ht⟩ := e2
          exact ⟨t, by rw [ht, bindings_if_write2]⟩
        | err e => rw [hx] at h; simp [SResult.andThen] at h
        | panicked => rw [hx] at h; simp [SResult.andThen] at h
  | ternary ty symbol1 symbol2 negatedTy negatedSymbol1 negatedSymbol2 e1 e2 e3
      customPrecedence customAssociativity ih1 ih2 ih3 =>
    intro s1 s2 h
    simp only [stringify] at h
    split at h
    · simp at h
    · cases hx1 : sideRender (isOperator e1) (resolveOperatorPrecedence e1 c) _
          (stringify c e1) (parenWrap (stringify c e1)) s1 with
      | ok t1 =>
        rw [hx1] at h
        simp only [SResult.andThen] at h
        cases hx2 : sideRender (isOperator e2) (resolveOperatorPrecedence e2 c) _
            (stringify c e2) (parenWrap (stringify c e2))
            (writeVerbatim t1 (" " ++ symbol1 ++ " ")) with
        | ok t2 =>
          rw [hx2] at h
          simp only [SResult.andThen] at h
          have x1 := extendsFn_sideRender ih1 (extendsFn_parenWrap ih1) _ _ _ _ _ hx1
          have x2 := extendsFn_sideRender ih2 (extendsFn_parenWrap ih2) _ _ _ _ _ hx2
          have x3 := extendsFn_sideRender ih3 (extendsFn_parenWrap ih3) _ _ _ _ _ h
          exact bindsExtend_trans x1 (bindsExtend_trans x2 x3)
        | err e => rw [hx2] at h; simp [SResult.andThen] at h
        | panicked => rw [hx2] at h; simp [SResult.andThen] at h
      | err e => rw [hx1] at h; simp [SResult.andThen] at h
      | panicked => rw [hx1] at h; simp [SResult.andThen] at h

theorem indexOfName_append (name : String) (l t : List String) (i : Nat)
    (h : indexOfName name l = some i) : indexOfName name (l ++ t) = some i := by
  induction l generalizing i with
  | nil => simp [indexOfName] at h
  | cons x xs ih =>
    by_cases hx : (x == name) = true
    · simp [indexOfName, hx] at h ⊢
      exact h
    · simp only [Bool.not_eq_true] at hx
      simp [indexOfName, hx] at h ⊢
      obtain ⟨j, hj, hji⟩ := h
      exact ⟨j, ih j hj, hji⟩

/-- A name already bound keeps its position in any appended-to binding table. -/
theorem boundPos_extend {s s' : PrintState} (name : String) (p : Nat)
    (h : boundPos s name = some p) (he : bindsExtend s s') :
    boundPos s' name = some p := by
  obtain ⟨t, ht⟩ := he
  unfold boundPos at h ⊢
  rw [ht]
  cases hidx : indexOfName name s.bindings with
  | none => simp [hidx] at h
  | some i =>
    rw [indexOfName_append _ _ _ _ hidx]
    simpa [hidx] using h

/-- C8: rewriting is idempotent — applying the rewrite pass to an
already-rewritten expression tree is a no-op: `transform c (transform c n)`
equals `transform c n`, structurally, at every node. -/
theorem transform_idempotent (c : Compiler) (n : Node) :
    transform c (transform c n) = transform c n :=
  transform_transform_aux c (nsize n) n le_rfl

/-- C1: for a binary operator, the code's left-child parenthesization decision
(tie-break target Right) coincides with the spec's formula, the right-child
decision with the formula flipped to Left; a child that is not an operator is
always rendered plainly (never parenthesized) while an operator child is
wrapped exactly when the formula fires; and under left-associative SUB,
`SUB(SUB(a,b),c)` renders its left child without parentheses while
`SUB(a,SUB(b,c))` renders its right child with parentheses. -/
theorem binary_child_parenthesization :
    (∀ (assoc : Associativity) (ownPrec childPrec : Nat),
      binaryNeedParen assoc ownPrec childPrec .rightAssociative =
        specLeftChildParen assoc ownPrec childPrec) ∧
    (∀ (assoc : Associativity) (ownPrec childPrec : Nat),
      binaryNeedParen assoc ownPrec childPrec .leftAssociative =
        specRightChildParen assoc ownPrec childPrec) ∧
    (∀ (precResult : Except Err Nat) (needParen : Nat → Bool)
      (plain wrapped : PrintState → SResult) (s : PrintState),
      sideRender false precResult needParen plain wrapped s = plain s) ∧
    (∀ (theirPrec : Nat) (needParen : Nat → Bool)
      (plain wrapped : PrintState → SResult) (s : PrintState),
      sideRender true (.ok theirPrec) needParen plain wrapped s =
        if needParen theirPrec then wrapped s else plain s) ∧
    stringify testCompiler (Sub (Sub (.column "" "a") (.column "" "b")) (.column "" "c")) st0
      = .ok { buffer := "a - b - c", bindings := [] } ∧
    stringify testCompiler (Sub (.column "" "a") (Sub (.column "" "b") (.column "" "c"))) st0
      = .ok { buffer := "a - (b - c)", bindings := [] } :=
  ⟨fun _ _ _ => rfl, fun _ _ _ => rfl, fun _ _ _ _ _ => rfl, fun _ _ _ _ _ => rfl, rfl, rfl⟩

/-- C7 counterexample: `BinaryOperator.negate` does not carry the
space-suppression flag over — a negatable binary built with
`SuppressSpace = true` negates to one with `SuppressSpace = false`; moreover a
logical-NOT unary is negatable yet its `negate()` returns the wrapped child
(here a non-operator), not a kind-and-symbol-swapped operator.  This refutes
the claim as stated. -/
theorem negate_preserves_fields_cex :
    negatable (.binary OpEq "=" OpNotEq "<>" (.column "" "a") (.column "" "b")
      0 .unset true) = true ∧
    Node.suppressSpace (.binary OpEq "=" OpNotEq "<>" (.column "" "a") (.column "" "b")
      0 .unset true) = true ∧
    Node.suppressSpace (negate (.binary OpEq "=" OpNotEq "<>" (.column "" "a")
      (.column "" "b") 0 .unset true)) = false ∧
    negatable (Not (.column "" "a")) = true ∧
    negate (Not (.column "" "a")) = .column "" "a" ∧
    isOperator (negate (Not (.column "" "a"))) = false :=
  ⟨rfl, rfl, rfl, rfl, rfl, rfl⟩

/-- C7 (amended): for every negatable operator other than a logical-NOT unary,
`negate()` swaps the kind and symbol(s) with the stored negated counterpart
while preserving the children and the custom precedence/associativity
overrides; a binary operator's space-suppression flag is not carried over (the
negated node gets `false`); a logical-NOT unary's `negate()` returns its
wrapped child unchanged. -/
theorem negate_fields_amended :
    (∀ (ty : OperatorType) (symbol : String) (negatedTy : OperatorType)
      (negatedSymbol : String) (e : Node) (customPrecedence : Nat)
      (customAssociativity : Associativity), ty ≠ OpNot →
      negate (.unary ty symbol negatedTy negatedSymbol e customPrecedence
        customAssociativity) =
      .unary negatedTy negatedSymbol ty symbol e customPrecedence
        customAssociativity) ∧
    (∀ (symbol : String) (negatedTy : OperatorType) (negatedSymbol : String)
      (e : Node) (customPrecedence : Nat) (customAssociativity : Associativity),
      negate (.unary OpNot symbol negatedTy negatedSymbol e customPrecedence
        customAssociativity) = e) ∧
    (∀ (ty : OperatorType) (symbol : String) (negatedTy : OperatorType)
      (negatedSymbol : String) (l r : Node) (customPrecedence : Nat)
      (customAssociativity : Associativity) (suppressSpace : Bool),
      negate (.binary ty symbol negatedTy negatedSymbol l r customPrecedence
        customAssociativity suppressSpace) =
      .binary negatedTy negatedSymbol ty symbol l r customPrecedence
        customAssociativity false) ∧
    (∀ (ty : OperatorType) (symbol1 symbol2 : String) (negatedTy : OperatorType)
      (negatedSymbol1 negatedSymbol2 : String) (e1 e2 e3 : Node)
      (customPrecedence : Nat) (customAssociativity : Associativity),
      negate (.ternary ty symbol1 symbol2 negatedTy negatedSymbol1 negatedSymbol2
        e1 e2 e3 customPrecedence customAssociativity) =
      .ternary negatedTy negatedSymbol1 negatedSymbol2 ty symbol1 symbol2
        e1 e2 e3 customPrecedence customAssociativity) := by
  refine ⟨?_, ?_, fun _ _ _ _ _ _ _ _ _ => rfl, fun _ _ _ _ _ _ _ _ _ _ _ => rfl⟩
  · intro ty symbol negatedTy negatedSymbol e customPrecedence customAssociativity h
    simp [negate, h]
  · intro symbol negatedTy negatedSymbol e customPrecedence customAssociativity
    simp [negate]

/-- C7 (amended) witness: the amended statement applied to a concrete
negatable unary (IS NULL with precedence override 4) and a concrete negatable
binary with the flag set. -/
theorem negate_fields_amended_witness :
    negate (.unary OpIsNull "IS NULL" OpIsNotNull "IS NOT NULL" (.column "" "a")
      4 .leftAssociative) =
      .unary OpIsNotNull "IS NOT NULL" OpIsNull "IS NULL" (.column "" "a")
        4 .leftAssociative ∧
    negate (.binary OpEq "=" OpNotEq "<>" (.column "" "a") (.column "" "b")
      7 .nonAssociative true) =
      .binary OpNotEq "<>" OpEq "=" (.column "" "a") (.column "" "b")
        7 .nonAssociative false :=
  ⟨negate_fields_amended.1 OpIsNull "IS NULL" OpIsNotNull "IS NOT NULL"
      (.column "" "a") 4 .leftAssociative (by decide),
    negate_fields_amended.2.2.1 OpEq "=" OpNotEq "<>" (.column "" "a")
      (.column "" "b") 7 .nonAssociative true⟩

/-- C2: the rewrite pass collapses a logical-NOT over a negatable operator
into the negated counterpart: `rewrite(NOT(IS_NULL(x)))` equals (and hence
renders identically to) `IS_NOT_NULL(x)`; `rewrite(NOT(NOT(P)))` equals
`rewrite(P)` for every `P`, because a logical-NOT's own `negatable()` is
always true and its `negate()` returns the wrapped child unchanged; a NOT
whose child is not an operator or is not negatable is preserved with only its
child rewritten. -/
theorem not_negation_rewrite :
    (∀ (c : Compiler) (x : Node), isOperator x = false →
      transform c (Not (IsNull x)) = IsNotNull x) ∧
    (∀ (c : Compiler) (x : Node) (s : PrintState), isOperator x = false →
      stringify c (transform c (Not (IsNull x))) s = stringify c (IsNotNull x) s) ∧
    (∀ (c : Compiler) (p : Node), transform c (Not (Not p)) = transform c p) ∧
    (∀ (c : Compiler) (p : Node) (s : PrintState),
      stringify c (transform c (Not (Not p))) s = stringify c (transform c p) s) ∧
    (∀ (symbol : String) (negatedTy : OperatorType) (negatedSymbol : String)
      (e : Node) (customPrecedence : Nat) (customAssociativity : Associativity),
      negatable (.unary OpNot symbol negatedTy negatedSymbol e customPrecedence
        customAssociativity) = true ∧
      negate (.unary OpNot symbol negatedTy negatedSymbol e customPrecedence
        customAssociativity) = e) ∧
    (∀ (c : Compiler) (e : Node) (symbol : String) (negatedTy : OperatorType)
      (negatedSymbol : String) (customPrecedence : Nat)
      (customAssociativity : Associativity),
      isOperator e = false ∨ negatable e = false →
      transform c (.unary OpNot symbol negatedTy negatedSymbol e customPrecedence
        customAssociativity) =
      .unary OpNot symbol negatedTy negatedSymbol (transform c e) customPrecedence
        customAssociativity) ∧
    (∀ (c : Compiler) (e : Node) (symbol : String) (negatedTy : OperatorType)
      (negatedSymbol : String) (customPrecedence : Nat)
      (customAssociativity : Associativity),
      isOperator e = true → negatable e = true →
      transform c (.unary OpNot symbol negatedTy negatedSymbol e customPrecedence
        customAssociativity) = transform c (negate e)) := by
  have h1 : ∀ (c : Compiler) (x : Node), isOperator x = false →
      transform c (Not (IsNull x)) = IsNotNull x := by
    intro c x hx
    simp [Not, IsNull, IsNotNull, transform, negate, isOperator, negatable,
      OpNot, OpIsNull, OpIsNotNull, transform_of_not_operator c x hx]
  have h3 : ∀ (c : Compiler) (p : Node), transform c (Not (Not p)) = transform c p := by
    intro c p
    conv_lhs => rw [Not, Not, transform]
    simp [isOperator, negatable, negate, OpNot]
  refine ⟨h1, fun c x s hx => by rw [h1 c x hx], h3, fun c p s => by rw [h3 c p],
    ?_, ?_, ?_⟩
  · intro symbol negatedTy negatedSymbol e customPrecedence customAssociativity
    exact ⟨by simp [negatable, OpNot], by simp [negate, OpNot]⟩
  · intro c e symbol negatedTy negatedSymbol customPrecedence customAssociativity h
    rcases h with h | h <;> rw [transform] <;> simp [h]
  · intro c e symbol negatedTy negatedSymbol customPrecedence customAssociativity hop hneg
    rw [transform]
    simp [hop, hneg]

/-- C2 witness: the rewrite collapses `NOT(IS NULL(a))` to `IS NOT NULL(a)`
for the concrete column `a`, and `NOT(NOT(a = b))` rewrites to the rewrite of
`a = b`. -/
theorem not_negation_rewrite_witness :
    transform testCompiler (Not (IsNull (.column "" "a"))) = IsNotNull (.column "" "a") ∧
    stringify testCompiler
        (transform testCompiler (Not (Not (Eq (.column "" "a") (.column "" "b"))))) st0 =
      stringify testCompiler (transform testCompiler (Eq (.column "" "a") (.column "" "b"))) st0 :=
  ⟨not_negation_rewrite.1 testCompiler (.column "" "a") rfl,
    not_negation_rewrite.2.2.2.1 testCompiler (Eq (.column "" "a") (.column "" "b")) st0⟩

/-- C4: a unary operator whose resolved associativity is NonAssociative fails
with the non-associative error; Right-associative emits `SYMBOL operand`
(prefix) and Left-associative emits `operand SYMBOL` (suffix); the operand is
wrapped iff it is an operator of strictly smaller resolved precedence (a tie
never wraps), and a non-operator operand is never wrapped.  Concrete renders:
prefix NOT, suffix IS NULL, an equal-precedence operand unwrapped, a
lower-precedence operand wrapped. -/
theorem unary_stringify_spec :
    (∀ (c : Compiler) (ty : OperatorType) (symbol : String) (negatedTy : OperatorType)
      (negatedSymbol : String) (e : Node) (customPrecedence : Nat)
      (customAssociativity : Associativity) (s : PrintState),
      resolveOperatorAssociativity (.unary ty symbol negatedTy negatedSymbol e
        customPrecedence customAssociativity) c = .ok .nonAssociative →
      stringify c (.unary ty symbol negatedTy negatedSymbol e customPrecedence
        customAssociativity) s = .err .nonAssociative) ∧
    (∀ (symbol : String) (f : PrintState → SResult) (s : PrintState),
      unaryEmit .rightAssociative symbol f s = f (writeVerbatim s (symbol ++ " "))) ∧
    (∀ (symbol : String) (f : PrintState → SResult) (s : PrintState),
      unaryEmit .leftAssociative symbol f s =
        (f s).andThen fun s2 => .ok (writeVerbatim s2 (" " ++ symbol))) ∧
    (∀ ownPrec childPrec : Nat, unaryNeedParen ownPrec childPrec = true ↔ childPrec < ownPrec) ∧
    (∀ p : Nat, unaryNeedParen p p = false) ∧
    (∀ (precResult : Except Err Nat) (needParen : Nat → Bool)
      (plain wrapped : PrintState → SResult) (s : PrintState),
      sideRender false precResult needParen plain wrapped s = plain s) ∧
    stringify testCompiler (Not (.column "" "a")) st0 =
      .ok { buffer := "NOT a", bindings := [] } ∧
    stringify testCompiler (IsNull (.column "" "a")) st0 =
      .ok { buffer := "a IS NULL", bindings := [] } ∧
    stringify testCompiler (IsNull (IsNull (.column "" "a"))) st0 =
      .ok { buffer := "a IS NULL IS NULL", bindings := [] } ∧
    stringify testCompiler (IsNull (Eq (.column "" "a") (.column "" "b"))) st0 =
      .ok { buffer := "(a = b) IS NULL", bindings := [] } := by
  refine ⟨?_, ?_, ?_, ?_, fun p => by simp [unaryNeedParen], fun _ _ _ _ _ => rfl,
    rfl, rfl, rfl, rfl⟩
  · intro c ty symbol negatedTy negatedSymbol e customPrecedence customAssociativity s h
    simp only [stringify]
    rw [h]
    rfl
  · intro symbol f s
    rw [show unaryEmit .rightAssociative symbol f s =
      (f (writeVerbatim s (symbol ++ " "))).andThen (fun s2 => .ok s2) from rfl, andThen_ok]
  · intro symbol f s
    rfl
  · intro ownPrec childPrec
    simp [unaryNeedParen]

/-- C4 witness: the NonAssociative failure at a concrete unary (IS TRUE under
the test dialect resolves to NonAssociative). -/
theorem unary_stringify_spec_witness :
    stringify testCompiler (IsTrue (.column "" "a")) st0 = .err .nonAssociative :=
  unary_stringify_spec.1 testCompiler OpIsTrue "IS TRUE" OpIsNotTrue "IS NOT TRUE"
    (.column "" "a") 0 .unset st0 rfl

/-- C5: effective precedence is the per-instance override when non-zero, else
the dialect table entry when non-zero, else the PrecedenceUndefined error, and
a successful resolution is never zero; effective associativity is the
per-instance override when it is one of NonAssociative/Left/Right, else the
dialect table entry when set, else the AssociativityUndefined error. -/
theorem resolve_precedence_associativity (op : Node) (c : Compiler) :
    (Node.precedence op ≠ 0 → resolveOperatorPrecedence op c = .ok (Node.precedence op)) ∧
    (Node.precedence op = 0 → c.precedence (Node.operatorType op) ≠ 0 →
      resolveOperatorPrecedence op c = .ok (c.precedence (Node.operatorType op))) ∧
    (Node.precedence op = 0 → c.precedence (Node.operatorType op) = 0 →
      resolveOperatorPrecedence op c = .error .noPrecedence) ∧
    (∀ p : Nat, resolveOperatorPrecedence op c = .ok p → p ≠ 0) ∧
    (Node.associativity op = .nonAssociative ∨ Node.associativity op = .leftAssociative ∨
        Node.associativity op = .rightAssociative →
      resolveOperatorAssociativity op c = .ok (Node.associativity op)) ∧
    (Node.associativity op = .unset → c.associativity (Node.operatorType op) ≠ .unset →
      resolveOperatorAssociativity op c = .ok (c.associativity (Node.operatorType op))) ∧
    (Node.associativity op = .unset → c.associativity (Node.operatorType op) = .unset →
      resolveOperatorAssociativity op c = .error .noAssociativity) := by
  refine ⟨?_, ?_, ?_, ?_, ?_, ?_, ?_⟩
  · intro h
    simp [resolveOperatorPrecedence, h]
  · intro h1 h2
    simp [resolveOperatorPrecedence, h1, h2]
  · intro h1 h2
    simp [resolveOperatorPrecedence, h1, h2]
  · intro p h
    simp only [resolveOperatorPrecedence] at h
    split at h
    · next hc =>
      simp only [Except.ok.injEq] at h
      simp only [bne_iff_ne] at hc
      exact h ▸ hc
    · split at h
      · next hc =>
        simp only [Except.ok.injEq] at h
        simp only [bne_iff_ne] at hc
        exact h ▸ hc
      · simp at h
  · intro h
    have hne : Node.associativity op ≠ .unset := by
      rcases h with h | h | h <;> simp [h]
    simp [resolveOperatorAssociativity, hne]
  · intro h1 h2
    simp [resolveOperatorAssociativity, h1, h2]
  · intro h1 h2
    simp [resolveOperatorAssociativity, h1, h2]

/-- C5 witness: an override of 9 wins over the table; an unset override falls
back to the table (NOT at 3, right-associative); an operator unknown to both
fails; an explicit left-associative override is returned as-is. -/
theorem resolve_precedence_associativity_witness :
    resolveOperatorPrecedence (.unary OpNot "NOT" 0 "" (.column "" "a") 9 .unset)
      testCompiler = .ok 9 ∧
    resolveOperatorPrecedence (Not (.column "" "a")) testCompiler = .ok 3 ∧
    resolveOperatorPrecedence (.binary OpLt "<" 0 "" (.column "" "a") (.column "" "b")
      0 .unset false) testCompiler = .error .noPrecedence ∧
    resolveOperatorAssociativity (Not (.column "" "a")) testCompiler =
      .ok .rightAssociative ∧
    resolveOperatorAssociativity (.binary OpLt "<" 0 "" (.column "" "a") (.column "" "b")
      0 .leftAssociative false) testCompiler = .ok .leftAssociative :=
  ⟨(resolve_precedence_associativity _ testCompiler).1 (by decide),
    (resolve_precedence_associativity (Not (.column "" "a")) testCompiler).2.1
      (by decide) (by decide),
    (resolve_precedence_associativity _ testCompiler).2.2.1 (by decide) (by decide),
    (resolve_precedence_associativity (Not (.column "" "a")) testCompiler).2.2.2.2.2.1
      (by decide) (by decide),
    (resolve_precedence_associativity _ testCompiler).2.2.2.2.1
      (Or.inr (Or.inl rfl))⟩

/-- C10: an order-by item emits a NULLS keyword in exactly two of the four
direction-and-preference combinations: descending with NullsLast renders
`" NULLS LAST"`, ascending with NullsFirst renders `" NULLS FIRST"`;
NullsLast on an ascending item and NullsFirst on a descending item render no
NULLS clause at all even though the preference was set. -/
theorem orderby_nulls_rendering (c : Compiler) (e : Node) (s s' : PrintState)
    (h : stringify c e s = .ok s') :
    stringifyOrderbyItem c (NullsLast (Desc e)) s =
      .ok (writeVerbatim (writeVerbatim s' " DESC") " NULLS LAST") ∧
    stringifyOrderbyItem c (NullsFirst (Asc e)) s = .ok (writeVerbatim s' " NULLS FIRST") ∧
    stringifyOrderbyItem c (NullsLast (Asc e)) s = .ok s' ∧
    stringifyOrderbyItem c (NullsFirst (Desc e)) s = .ok (writeVerbatim s' " DESC") := by
  refine ⟨?_, ?_, ?_, ?_⟩ <;>
    simp [stringifyOrderbyItem, NullsLast, NullsFirst, Desc, Asc, h, SResult.andThen]

/-- C10 witness: the four combinations at the concrete column `a`. -/
theorem orderby_nulls_rendering_witness :
    stringifyOrderbyItem testCompiler (NullsLast (Asc (.column "" "a"))) st0 =
      .ok { buffer := "a", bindings := [] } ∧
    stringifyOrderbyItem testCompiler (NullsFirst (Desc (.column "" "a"))) st0 =
      .ok { buffer := "a DESC", bindings := [] } :=
  ⟨(orderby_nulls_rendering testCompiler (.column "" "a") st0
      { buffer := "a", bindings := [] } rfl).2.2.1,
    (orderby_nulls_rendering testCompiler (.column "" "a") st0
      { buffer := "a", bindings := [] } rfl).2.2.2⟩

/-- C3: a ternary operator wraps each of its three children iff the child is
itself an operator whose resolved precedence is less than or equal to the
ternary's own — an exact tie always forces parentheses; a non-operator child
is never wrapped; the node renders as `child1 SYMBOL1 child2 SYMBOL2 child3`. -/
theorem ternary_child_parenthesization :
    (∀ ownPrec childPrec : Nat,
      ternaryNeedParen ownPrec childPrec = true ↔ childPrec ≤ ownPrec) ∧
    (∀ p : Nat, ternaryNeedParen p p = true) ∧
    (∀ (precResult : Except Err Nat) (needParen : Nat → Bool)
      (plain wrapped : PrintState → SResult) (s : PrintState),
      sideRender false precResult needParen plain wrapped s = plain s) ∧
    (∀ (theirPrec ownPrec : Nat) (plain wrapped : PrintState → SResult) (s : PrintState),
      sideRender true (.ok theirPrec) (ternaryNeedParen ownPrec) plain wrapped s =
        if theirPrec ≤ ownPrec then wrapped s else plain s) ∧
    (∀ (c : Compiler) (ty : OperatorType) (symbol1 symbol2 : String)
      (negatedTy : OperatorType) (negatedSymbol1 negatedSymbol2 : String)
      (e1 e2 e3 : Node) (customPrecedence : Nat)
      (customAssociativity : Associativity) (s : PrintState),
      isOperator e1 = false → isOperator e2 = false → isOperator e3 = false →
      stringify c (.ternary ty symbol1 symbol2 negatedTy negatedSymbol1 negatedSymbol2
        e1 e2 e3 customPrecedence customAssociativity) s =
        (match resolveOperatorPrecedence (.ternary ty symbol1 symbol2 negatedTy
            negatedSymbol1 negatedSymbol2 e1 e2 e3 customPrecedence
            customAssociativity) c with
          | .error er => .err er
          | .ok _ =>
            (stringify c e1 s).andThen fun s1 =>
              (stringify c e2 (writeVerbatim s1 (" " ++ symbol1 ++ " "))).andThen fun s2 =>
                stringify c e3 (writeVerbatim s2 (" " ++ symbol2 ++ " ")))) ∧
    stringify testCompiler (Between (Add (.column "" "a") (.column "" "b"))
      (.column "" "a") (.column "" "b")) st0 =
      .ok { buffer := "(a + b) BETWEEN a AND b", bindings := [] } := by
  refine ⟨?_, fun p => by simp [ternaryNeedParen], fun _ _ _ _ _ => rfl, ?_, ?_, rfl⟩
  · intro ownPrec childPrec
    simp [ternaryNeedParen]
  · intro theirPrec ownPrec plain wrapped s
    simp [sideRender, ternaryNeedParen]
  · intro c ty symbol1 symbol2 negatedTy negatedSymbol1 negatedSymbol2 e1 e2 e3
      customPrecedence customAssociativity s h1 h2 h3
    simp only [stringify]
    cases resolveOperatorPrecedence (.ternary ty symbol1 symbol2 negatedTy
        negatedSymbol1 negatedSymbol2 e1 e2 e3 customPrecedence
        customAssociativity) c with
    | error er => rfl
    | ok ourPrecedence => simp [sideRender, h1, h2, h3]

/-- C3 witness: the ternary shape applied at a concrete BETWEEN with three
non-operator children. -/
theorem ternary_child_parenthesization_witness :
    stringify testCompiler (Between (.column "" "a") (.column "" "b") (.column "" "c"))
      st0 = .ok { buffer := "a BETWEEN b AND c", bindings := [] } := by
  have h := ternary_child_parenthesization.2.2.2.2.1 testCompiler OpBetween "BETWEEN"
    "AND" OpNotBetween "NOT BETWEEN" "AND" (.column "" "a") (.column "" "b")
    (.column "" "c") 0 .unset st0 rfl rfl rfl
  exact h.trans rfl

/-- C6: a placeholder leaf resolves through the binder — an already-bound name
reuses its existing position with the state unchanged, an unbound name is
assigned the next sequential 1-based position and recorded; the spliced text
is the dialect's rendering function applied to (name, position); a bound
name's position survives any further rendering in the same print pass, so
same-named leaves render identically; concretely `x = x` over one pass yields
`$1 = $1`. -/
theorem placeholder_binding_spec :
    (∀ (s : PrintState) (name : String) (p : Nat), boundPos s name = some p →
      insertPlaceholder s name = (p, s)) ∧
    (∀ (s : PrintState) (name : String), boundPos s name = none →
      insertPlaceholder s name =
        (s.bindings.length + 1, { s with bindings := s.bindings ++ [name] })) ∧
    (∀ (c : Compiler) (name : String) (s : PrintState),
      stringify c (.placeholder name) s =
        .ok (writeVerbatim (insertPlaceholder s name).2
          (c.makePlaceholder name (insertPlaceholder s name).1))) ∧
    (∀ (c : Compiler) (n : Node) (s s' : PrintState) (name : String) (p : Nat),
      boundPos s name = some p → stringify c n s = .ok s' →
      boundPos s' name = some p) ∧
    stringify testCompiler (Eq (.placeholder "x") (.placeholder "x")) st0 =
      .ok { buffer := "$1 = $1", bindings := ["x"] } := by
  refine ⟨?_, ?_, fun _ _ _ => rfl, ?_, rfl⟩
  · intro s name p h
    simp only [boundPos] at h
    cases hidx : indexOfName name s.bindings with
    | none => rw [hidx] at h; simp at h
    | some i =>
      rw [hidx] at h
      simp only [Option.map_some', Option.some.injEq] at h
      simp [insertPlaceholder, hidx, h]
  · intro s name h
    simp only [boundPos, Option.map_eq_none'] at h
    simp [insertPlaceholder, h]
  · intro c n s s' name p hb hs
    exact boundPos_extend name p hb (stringify_extends c n s s' hs)

/-- C6 witness: reuse of a bound position at a concrete state, and stability
of the position of `x` across rendering another node in the same pass. -/
theorem placeholder_binding_spec_witness :
    insertPlaceholder { buffer := "", bindings := ["x"] } "x" =
      (1, { buffer := "", bindings := ["x"] }) ∧
    boundPos { buffer := "a", bindings := ["x"] } "x" = some 1 :=
  ⟨placeholder_binding_spec.1 { buffer := "", bindings := ["x"] } "x" 1 rfl,
    placeholder_binding_spec.2.2.2.1 testCompiler (.column "" "a")
      { buffer := "", bindings := ["x"] } { buffer := "a", bindings := ["x"] }
      "x" 1 rfl rfl⟩

/-- C9: `SelectStmt.Stringify` is not total — an empty Columns list panics
(out-of-range index) after writing `"SELECT "`, for any combination of the
other clauses, rather than returning a typed error; with a non-empty list the
first column renders after `"SELECT "` and each later column after a bare
comma with no following space. -/
theorem select_stringify_columns :
    (∀ (c : Compiler) (fromClause : Option FromClause) (whereClause : Option WhereClause)
      (groupByClause : Option GroupByClause) (havingClause : Option HavingClause)
      (orderByClause : Option OrderByClause) (limitClause : Option LimitClause)
      (offsetClause : Option OffsetClause) (s : PrintState),
      stringifySelect c (.mk [] fromClause whereClause groupByClause havingClause
        orderByClause limitClause offsetClause) s = .panicked) ∧
    (∀ (c : Compiler) (c0 : LabeledColumn) (rest : List LabeledColumn) (s : PrintState),
      stringifySelect c (.mk (c0 :: rest) none none none none none none none) s =
        (stringifyLabeledColumn c c0 (writeVerbatim s "SELECT ")).andThen
          (stringifyCommaRest (stringifyLabeledColumn c) rest)) ∧
    (∀ (α : Type) (render : α → PrintState → SResult) (x : α) (xs : List α)
      (s : PrintState),
      stringifyCommaRest render (x :: xs) s =
        (render x (writeVerbatim s ",")).andThen (stringifyCommaRest render xs)) ∧
    stringifySelect testCompiler (.mk [{ expr := .column "" "a", label := "x" },
      { expr := .column "" "b", label := "y" }] none none none none none none none)
      st0 = .ok { buffer := "SELECT a x,b y", bindings := [] } := by
  refine ⟨?_, ?_, fun _ _ _ _ _ => rfl, ?_⟩
  · intro c fromClause whereClause groupByClause havingClause orderByClause
      limitClause offsetClause s
    simp [stringifySelect]
  · intro c c0 rest s
    simp only [stringifySelect]
    cases h1 : stringifyLabeledColumn c c0 (writeVerbatim s "SELECT ") with
    | ok t1 =>
      simp only [SResult.andThen]
      cases h2 : stringifyCommaRest (stringifyLabeledColumn c) rest t1 <;>
        simp [SResult.andThen]
    | err e => simp [SResult.andThen]
    | panicked => simp [SResult.andThen]
  · simp [stringifySelect, stringifyLabeledColumn, stringifyCommaRest, stringify,
      SResult.andThen, writeVerbatim, writeIdentifier, testCompiler, st0]

end Flexsql
